import Mathlib

/-!
Verification development for `generate_markers.py` (JYF/edmap).

The script builds a SQLite index of star systems from a JSONL record
source (`build_systems_db`), decides from file modification timestamps
whether to rebuild it (`ensure_systems_db`), and streams a station CSV
through indexed lookups (`get_system_coords`) to produce a markers
document plus an unmatched list (`generate_markers`).

Embedding choices:
* JSON numeric values only flow through the pipeline unchanged, so we
  model them as `Rat`.
* A JSON object value of the `coords` field is modelled as an
  association list, so Python truthiness of the dict (`if name and
  coords`) is list non-emptiness and `coords.get` is association-list
  lookup.
* The SQLite table `systems(name TEXT PRIMARY KEY COLLATE NOCASE, ...)`
  together with `INSERT OR REPLACE` is modelled as a list of rows where
  inserting removes every row whose name is equal under the NOCASE fold
  (SQLite NOCASE folds exactly the 26 upper-case ASCII letters).
* A missing file is modelled as `none`; `sys.exit(1)` and the uncaught
  `FileNotFoundError` of `os.path.getmtime` become `Except` errors.
* The record source is modelled twice: `JsonLine` covers the full JSON
  universe, including the lines on which the build loop raises an
  uncaught `AttributeError` (a parsed non-object line, a non-string
  `name`, a truthy non-object `coords`), with the raising build
  `build_systems_db_py`; `SrcLine` is its raise-free fragment with the
  total build `build_systems_db`, and `build_systems_db_py_wf` proves
  the latter is the restriction of the former.
-/

/-- NOCASE fold of one character: SQLite's NOCASE collation maps the 26
upper-case ASCII letters to lower case and leaves everything else. -/
def foldChar (c : Char) : Char :=
  if c.toNat ≥ 65 ∧ c.toNat ≤ 90 then Char.ofNat (c.toNat + 32) else c

/-- NOCASE fold of a name, the normalization under which the `systems`
table compares its primary key. -/
def nocase (s : String) : String :=
  String.mk (s.data.map foldChar)

/-- Python's `str.strip()`: drop leading and trailing whitespace. -/
def pyStrip (s : String) : String :=
  String.mk (((s.data.dropWhile Char.isWhitespace).reverse.dropWhile
    Char.isWhitespace).reverse)

/-- `dict.get(k)` on a parsed JSON object, modelled as association-list
lookup. -/
def jget (kvs : List (String × Rat)) (k : String) : Option Rat :=
  (kvs.find? (fun p => p.1 == k)).map (fun p => p.2)

/-- One row of the `systems` table: `(name, x, y, z)`; the coordinate
columns are nullable because `coords.get` can return `None`. -/
structure SysRow where
  name : String
  x : Option Rat
  y : Option Rat
  z : Option Rat
deriving Repr, DecidableEq

/-- The `systems` table. -/
abbrev DB := List SysRow

/-- `INSERT OR REPLACE INTO systems` with a NOCASE primary key: delete
every row whose name collides under the fold, then insert the new row. -/
def insertOrReplace (db : DB) (r : SysRow) : DB :=
  db.filter (fun q => nocase q.name != nocase r.name) ++ [r]

/-- `SELECT x, y, z FROM systems WHERE name = ?` (comparison under the
column's NOCASE collation), then `fetchone`: `None` when not found. -/
def get_system_coords (db : DB) (system_name : String) :
    Option (Option Rat × Option Rat × Option Rat) :=
  (db.find? (fun r => nocase r.name == nocase system_name)).map
    (fun r => (r.x, r.y, r.z))

/-- A well-formed line of the JSONL record source, pre-tokenized:
`blank` is a line with `line.strip()` falsy, `malformed` a non-blank
line raising `JSONDecodeError`, and `record` a parsed JSON object with
its optional `name` string field and optional `coords` object field.
This is the fragment of the full line universe (`JsonLine`, below) on
which the loop body of `build_systems_db` cannot raise; `wfLine` embeds
it into `JsonLine` and `build_systems_db_py_wf` proves that the total
build below is the restriction of the raising build to this fragment. -/
inductive SrcLine where
  | blank : SrcLine
  | malformed : SrcLine
  | record (name : Option String) (coords : Option (List (String × Rat))) : SrcLine
deriving Repr, DecidableEq

/-- The Python guard `if name and coords` after
`name = system.get("name", "").strip()` and
`coords = system.get("coords", {})`: the trimmed name is non-empty and
the coords object is present and non-empty. -/
def acceptsLine : SrcLine → Bool
  | SrcLine.record name coords =>
      (pyStrip (name.getD "") != "") && !(coords.getD []).isEmpty
  | _ => false

/-- The `systems` row inserted for an accepted record line:
`(name, coords.get("x"), coords.get("y"), coords.get("z"))`. -/
def lineRow (name : Option String) (coords : Option (List (String × Rat))) : SysRow :=
  ⟨pyStrip (name.getD ""), jget (coords.getD []) "x",
    jget (coords.getD []) "y", jget (coords.getD []) "z"⟩

/-- Running state of `build_systems_db`: the table, the inserted-row
counter, and the line numbers for which a parse warning was printed. -/
structure BuildState where
  db : DB
  count : Nat
  warnings : List Nat
deriving Repr, DecidableEq

/-- The body of the `for line_num, line in enumerate(f, 1)` loop of
`build_systems_db`: blank lines are ignored, a `JSONDecodeError` prints
a warning naming the line number and continues, and a parsed object is
inserted only when the guard `if name and coords` holds. -/
def buildStep (s : BuildState) (p : Nat × SrcLine) : BuildState :=
  match p.2 with
  | SrcLine.blank => s
  | SrcLine.malformed => ⟨s.db, s.count, s.warnings ++ [p.1]⟩
  | SrcLine.record name coords =>
      if acceptsLine (SrcLine.record name coords) then
        ⟨insertOrReplace s.db (lineRow name coords), s.count + 1, s.warnings⟩
      else s

/-- `DELETE FROM systems`: the build clears whatever table was there. -/
def clearTable (_ : DB) : DB := []

/-- `build_systems_db`: clear the table, then fold the loop body over
the 1-numbered lines of the source. Returns the final table, the count
(the function's return value) and the warned line numbers. -/
def build_systems_db (prior : DB) (lines : List SrcLine) : BuildState :=
  (List.enumFrom 1 lines).foldl buildStep ⟨clearTable prior, 0, []⟩

/-- The `try/except FileNotFoundError` around opening the JSONL source:
a missing source aborts with `sys.exit(1)`. -/
def build_systems_db_from_file (prior : DB) (file : Option (List SrcLine)) :
    Except Nat BuildState :=
  match file with
  | none => Except.error 1
  | some lines => Except.ok (build_systems_db prior lines)

/-- The decision of `ensure_systems_db`. -/
inductive EnsureAction where
  | reuse : EnsureAction
  | rebuild : EnsureAction
deriving Repr, DecidableEq

/-- The uncaught Python exceptions a run can die with: `FileNotFoundError`
from `os.path.getmtime`, and `AttributeError` from calling `.get` or
`.strip()` on a JSON value of the wrong shape inside the build loop. -/
inductive PyError where
  | fileNotFound : PyError
  | attributeError : PyError
deriving Repr, DecidableEq

/-- `ensure_systems_db`, as a function of the two file modification
timestamps alone (a missing file has timestamp `none`). The body first
evaluates `os.path.getmtime(jsonl_path)` — which raises an uncaught
`FileNotFoundError` when the source is absent — then reuses the store
when it exists and `db_mtime >= jsonl_mtime`, and rebuilds otherwise. -/
def ensure_systems_db (jsonl_mtime db_mtime : Option Nat) :
    Except PyError EnsureAction :=
  match jsonl_mtime with
  | none => Except.error PyError.fileNotFound
  | some jm =>
      match db_mtime with
      | some dm =>
          if dm ≥ jm then Except.ok EnsureAction.reuse
          else Except.ok EnsureAction.rebuild
      | none => Except.ok EnsureAction.rebuild

/-- `TYPE_TO_PIN`: station type to edastro pin icon. -/
def TYPE_TO_PIN : List (String × String) :=
  [("Asteroid base", "asteroidbase"),
   ("Coriolis Starport", "coriolis"),
   ("Dodec Starport", "dodec"),
   ("Drake-Class Carrier", "carrier"),
   ("Ocellus Starport", "ocellus"),
   ("Orbis Starport", "orbis"),
   ("Outpost", "outpost"),
   ("Planetary Outpost", "planetarybase")]

/-- `DEFAULT_PIN`: pin for unknown station types. -/
def DEFAULT_PIN : String := "orange"

/-- `get_pin_color`: `TYPE_TO_PIN.get(station_type, DEFAULT_PIN)`. -/
def get_pin_color (station_type : String) : String :=
  ((TYPE_TO_PIN.find? (fun p => p.1 == station_type)).map (fun p => p.2)).getD
    DEFAULT_PIN

/-- One `csv.DictReader` row of the station table; each field is the
optional value of the corresponding column (`row.get(c, "")` defaults a
missing column to the empty string). -/
structure StationRow where
  nameField : Option String
  systemField : Option String
  typeField : Option String
deriving Repr, DecidableEq

/-- A marker of the output document. -/
structure Marker where
  pin : String
  text : String
  x : Option Rat
  y : Option Rat
  z : Option Rat
deriving Repr, DecidableEq

/-- An entry of the unmatched diagnostics list, carrying the original
(trimmed but not case-normalized) field values. -/
structure UnmatchedEntry where
  name : String
  system : String
  stype : String
deriving Repr, DecidableEq

/-- Accumulated outputs of the CSV loop of `generate_markers`. -/
structure GenState where
  markers : List Marker
  unmatched : List UnmatchedEntry
  matched_count : Nat
deriving Repr, DecidableEq

/-- The body of the `for row in reader` loop of `generate_markers`: trim
the three fields, look the system name up in the `systems` table, and
append either a marker (with pin and the three-line text) or an
unmatched entry. -/
def processRow (db : DB) (s : GenState) (row : StationRow) : GenState :=
  let name := pyStrip (row.nameField.getD "")
  let system_name := pyStrip (row.systemField.getD "")
  let station_type := pyStrip (row.typeField.getD "")
  match get_system_coords db system_name with
  | some c =>
      ⟨s.markers ++
        [⟨get_pin_color station_type,
          system_name ++ "\n" ++ name ++ "\nType : " ++ station_type,
          c.1, c.2.1, c.2.2⟩],
        s.unmatched, s.matched_count + 1⟩
  | none =>
      ⟨s.markers, s.unmatched ++ [⟨name, system_name, station_type⟩],
        s.matched_count⟩

/-- The whole CSV loop, starting from empty lists and a zero counter. -/
def processCsv (db : DB) (rows : List StationRow) : GenState :=
  rows.foldl (processRow db) ⟨[], [], 0⟩

/-- What one invocation of `generate_markers` leaves behind:
`exitCode = some c` when it called `sys.exit(c)`, `artifact` is the
markers list of the output document when that file was written, and
`summary` is the printed `(total, matched, unmatched)` triple. -/
structure GenOutcome where
  exitCode : Option Nat
  artifact : Option (List Marker)
  summary : Option (Nat × Nat × Nat)
deriving Repr, DecidableEq

/-- `generate_markers`: a missing CSV aborts with `sys.exit(1)` before
anything is written; otherwise the whole table is processed, the output
document is written, and the summary `total = matched + unmatched` is
printed. -/
def generate_markers (db : DB) (csvFile : Option (List StationRow)) :
    GenOutcome :=
  match csvFile with
  | none => ⟨some 1, none, none⟩
  | some rows =>
      let r := processCsv db rows
      ⟨none, some r.markers,
        some (r.matched_count + r.unmatched.length, r.matched_count,
          r.unmatched.length)⟩

/-- Whether a source line is the `JSONDecodeError` case. -/
def isMalformed : SrcLine → Bool
  | SrcLine.malformed => true
  | _ => false

/-- The effect of one source line on the `systems` table alone. -/
def applyLine (d : DB) : SrcLine → DB
  | SrcLine.record name coords =>
      if acceptsLine (SrcLine.record name coords) then
        insertOrReplace d (lineRow name coords)
      else d
  | _ => d

/-- A source line the spec calls skipped: it fails to parse (a blank
line cannot parse either), or parses but lacks a non-empty `name` or a
(non-empty) coordinate object. Stated from the spec wording, for
comparison with what `build_systems_db` actually warns about. -/
def skippedPerSpec (l : SrcLine) : Bool :=
  match l with
  | SrcLine.blank => true
  | SrcLine.malformed => true
  | SrcLine.record name coords =>
      (pyStrip (name.getD "") == "") || (coords.getD []).isEmpty

/-- The JSON value at the `name` key of a parsed line object: absent
(so `system.get("name", "")` yields `""`), a string, or any non-string
JSON value — on which `.strip()` raises `AttributeError`. -/
inductive NameField where
  | absent : NameField
  | str (s : String) : NameField
  | nonString : NameField
deriving Repr, DecidableEq

/-- The JSON value at the `coords` key of a parsed line object: absent
(so `system.get("coords", {})` yields the falsy `{}`), an object, or a
non-object JSON value split by Python truthiness — a truthy non-object
raises `AttributeError` at `coords.get("x")` once the guard is entered,
a falsy one (`""`, `0`, `[]`, `None`, `False`) fails the guard. -/
inductive CoordsField where
  | absent : CoordsField
  | obj (kvs : List (String × Rat)) : CoordsField
  | nonObjTruthy : CoordsField
  | nonObjFalsy : CoordsField
deriving Repr, DecidableEq

/-- One line of the JSONL source over the full JSON universe:
`blank` and `malformed` as in `SrcLine`; `nonObject` is a line whose
JSON parses but is not an object (`null`, a number, an array, a string,
a boolean), so `system.get` raises `AttributeError`; `record` is a
parsed object classified by the shapes of its `name` and `coords`
values. -/
inductive JsonLine where
  | blank : JsonLine
  | malformed : JsonLine
  | nonObject : JsonLine
  | record (name : NameField) (coords : CoordsField) : JsonLine
deriving Repr, DecidableEq

/-- Whether a full-universe line is the `JSONDecodeError` case. -/
def isMalformedJ : JsonLine → Bool
  | JsonLine.malformed => true
  | _ => false

/-- The guard `if name and coords` over the full universe: a string
name that trims non-empty and an object coords that is non-empty. -/
def acceptsLineJ : JsonLine → Bool
  | JsonLine.record (NameField.str s) (CoordsField.obj kvs) =>
      (pyStrip s != "") && !kvs.isEmpty
  | _ => false

/-- Whether the loop body raises an uncaught `AttributeError` on this
line: the parsed JSON is not an object (`system.get` has no receiver
method), the `name` value is not a string (`.strip()` fails), or the
`name` is a non-empty string and `coords` a truthy non-object
(`coords.get("x")` fails inside the guard). -/
def raisesLine : JsonLine → Bool
  | JsonLine.nonObject => true
  | JsonLine.record NameField.nonString _ => true
  | JsonLine.record (NameField.str s) CoordsField.nonObjTruthy =>
      pyStrip s != ""
  | _ => false

/-- The loop body of `build_systems_db` over the full line universe,
with its raising cases explicit; follows Python evaluation order:
`system.get("name", "").strip()` first, then the `if name and coords`
guard (short-circuiting, so a falsy name or coords never reaches
`coords.get`), then the insert. -/
def buildStepPy (s : BuildState) (p : Nat × JsonLine) :
    Except PyError BuildState :=
  match p.2 with
  | JsonLine.blank => Except.ok s
  | JsonLine.malformed => Except.ok ⟨s.db, s.count, s.warnings ++ [p.1]⟩
  | JsonLine.nonObject => Except.error PyError.attributeError
  | JsonLine.record name coords =>
      match name with
      | NameField.nonString => Except.error PyError.attributeError
      | NameField.absent => Except.ok s
      | NameField.str s0 =>
          if pyStrip s0 == "" then Except.ok s
          else
            match coords with
            | CoordsField.absent => Except.ok s
            | CoordsField.nonObjFalsy => Except.ok s
            | CoordsField.nonObjTruthy => Except.error PyError.attributeError
            | CoordsField.obj kvs =>
                if kvs.isEmpty then Except.ok s
                else Except.ok
                  ⟨insertOrReplace s.db
                    ⟨pyStrip s0, jget kvs "x", jget kvs "y", jget kvs "z"⟩,
                    s.count + 1, s.warnings⟩

/-- Run the loop body over numbered lines, stopping at the first
uncaught exception. -/
def buildFoldPy : List (Nat × JsonLine) → BuildState → Except PyError BuildState
  | [], s => Except.ok s
  | p :: ps, s =>
      match buildStepPy s p with
      | Except.error e => Except.error e
      | Except.ok s2 => buildFoldPy ps s2

/-- `build_systems_db` over the full line universe: clear the table and
run the loop, which either completes or dies on an uncaught
`AttributeError`. -/
def build_systems_db_py (prior : DB) (lines : List JsonLine) :
    Except PyError BuildState :=
  buildFoldPy (List.enumFrom 1 lines) ⟨clearTable prior, 0, []⟩

/-- Embedding of the well-formed lines into the full universe. -/
def wfLine : SrcLine → JsonLine
  | SrcLine.blank => JsonLine.blank
  | SrcLine.malformed => JsonLine.malformed
  | SrcLine.record name coords =>
      JsonLine.record
        (match name with
         | none => NameField.absent
         | some s => NameField.str s)
        (match coords with
         | none => CoordsField.absent
         | some kvs => CoordsField.obj kvs)

example :
    (build_systems_db [] [SrcLine.record (some "Sol") (some [("x", 1), ("y", 2), ("z", 3)])]).db
      = [⟨"Sol", some 1, some 2, some 3⟩] := by decide

example :
    (build_systems_db [] [SrcLine.record (some "Sol") (some [("x", 1)])]).db
      = [⟨"Sol", some 1, none, none⟩] := by decide

example :
    (build_systems_db [] [SrcLine.malformed, SrcLine.record (some "A") none]).warnings
      = [1] := by decide

example :
    get_system_coords [⟨"Sol", some 0, some 0, some 0⟩] "SOL"
      = some (some 0, some 0, some 0) := by decide

example :
    generate_markers [⟨"Sol", some 0, some 0, some 0⟩]
      (some [⟨some "Abraham Lincoln", some "sol", some "Coriolis Starport"⟩])
      = ⟨none,
         some [⟨"coriolis", "sol\nAbraham Lincoln\nType : Coriolis Starport",
           some 0, some 0, some 0⟩],
         some (1, 1, 0)⟩ := by decide

example :
    generate_markers [] (some [⟨some "A", some "Nowhere", some "Outpost"⟩])
      = ⟨none, some [], some (1, 0, 1)⟩ := by decide

example :
    (generate_markers [⟨"Sol", some 0, some 0, some 0⟩]
      (some [⟨some "M", some "Sol", some "Megaship"⟩])).artifact.map
        (fun l => l.map (fun m => m.pin)) = some ["orange"] := by
  decide

example :
    build_systems_db_py [] [JsonLine.nonObject]
      = Except.error PyError.attributeError := rfl

example :
    build_systems_db_py []
        [JsonLine.record NameField.nonString (CoordsField.obj [("x", 1)])]
      = Except.error PyError.attributeError := rfl

example :
    build_systems_db_py []
        [JsonLine.record (NameField.str "A") CoordsField.nonObjTruthy]
      = Except.error PyError.attributeError := rfl

example :
    build_systems_db_py []
        [JsonLine.record (NameField.str " ") CoordsField.nonObjTruthy]
      = Except.ok ⟨[], 0, []⟩ := rfl

example :
    build_systems_db_py []
        ([SrcLine.malformed, SrcLine.record (some "Sol") (some [("x", 1)])].map
          wfLine)
      = Except.ok
          (build_systems_db []
            [SrcLine.malformed, SrcLine.record (some "Sol") (some [("x", 1)])]) :=
  rfl

example : ensure_systems_db (some 5) (some 5) = Except.ok EnsureAction.reuse := rfl
example : ensure_systems_db (some 6) (some 5) = Except.ok EnsureAction.rebuild := rfl
example : ensure_systems_db none (some 99) = Except.error PyError.fileNotFound := rfl

theorem lookup_congr (db : DB) (q1 q2 : String) (h : nocase q1 = nocase q2) :
    get_system_coords db q1 = get_system_coords db q2 := by
  simp only [get_system_coords, h]

theorem lookup_insertOrReplace (db : DB) (r : SysRow) (q : String)
    (h : nocase q = nocase r.name) :
    get_system_coords (insertOrReplace db r) q = some (r.x, r.y, r.z) := by
  have hnone : (db.filter fun p => nocase p.name != nocase r.name).find?
      (fun p => nocase p.name == nocase q) = none := by
    rw [List.find?_eq_none]
    intro x hx
    have hmem := List.mem_filter.mp hx
    simp only [bne_iff_ne, ne_eq] at hmem
    simp only [h, beq_iff_eq]
    exact hmem.2
  unfold get_system_coords insertOrReplace
  rw [List.find?_append, hnone]
  simp [List.find?_cons, h]

theorem foldl_buildStep_warnings (ps : List (Nat × SrcLine)) (s : BuildState) :
    ((ps.foldl buildStep s).warnings)
      = s.warnings ++ ((ps.filter fun p => isMalformed p.2).map fun p => p.1) := by
  induction ps generalizing s with
  | nil => simp
  | cons p ps ih =>
      cases p with
      | mk n l =>
          cases l with
          | blank => simpa [buildStep, isMalformed] using ih s
          | malformed => simp [buildStep, isMalformed, ih]
          | record name coords =>
              by_cases hacc : acceptsLine (SrcLine.record name coords) = true
              · simpa [buildStep, isMalformed, hacc] using
                  ih ⟨insertOrReplace s.db (lineRow name coords), s.count + 1,
                    s.warnings⟩
              · simpa [buildStep, isMalformed, hacc] using ih s

theorem foldl_buildStep_db (ps : List (Nat × SrcLine)) (s : BuildState) :
    (ps.foldl buildStep s).db = (ps.map fun p => p.2).foldl applyLine s.db := by
  induction ps generalizing s with
  | nil => simp
  | cons p ps ih =>
      cases p with
      | mk n l =>
          cases l with
          | blank => simpa [buildStep, applyLine] using ih s
          | malformed => simpa [buildStep, applyLine] using ih ⟨s.db, s.count, s.warnings ++ [n]⟩
          | record name coords =>
              by_cases hacc : acceptsLine (SrcLine.record name coords) = true
              · simpa [buildStep, applyLine, hacc] using
                  ih ⟨insertOrReplace s.db (lineRow name coords), s.count + 1,
                    s.warnings⟩
              · simpa [buildStep, applyLine, hacc] using ih s

theorem enumFrom_map_snd (n : Nat) (l : List SrcLine) :
    ((List.enumFrom n l).map fun p => p.2) = l := by
  induction l generalizing n with
  | nil => rfl
  | cons x xs ih => simp [List.enumFrom, ih]

theorem build_db_applyLine (prior : DB) (lines : List SrcLine) :
    (build_systems_db prior lines).db = lines.foldl applyLine [] := by
  simp [build_systems_db, foldl_buildStep_db, enumFrom_map_snd, clearTable]

theorem applyLine_skip (d : DB) (l : SrcLine) (h : acceptsLine l = false) :
    applyLine d l = d := by
  cases l with
  | blank => rfl
  | malformed => rfl
  | record name coords => simp [applyLine, h]

theorem processRow_one_outcome (db : DB) (s : GenState) (row : StationRow) :
    (processRow db s row).markers.length + (processRow db s row).unmatched.length
      = s.markers.length + s.unmatched.length + 1 := by
  simp only [processRow]
  cases hc : get_system_coords db (pyStrip (row.systemField.getD "")) with
  | none => simp [hc]; omega
  | some c => simp [hc]; omega

theorem processRow_matched (db : DB) (s : GenState) (row : StationRow) :
    (processRow db s row).matched_count + s.markers.length
      = (processRow db s row).markers.length + s.matched_count := by
  simp only [processRow]
  cases hc : get_system_coords db (pyStrip (row.systemField.getD "")) with
  | none => simp [hc]; omega
  | some c => simp [hc]; omega

theorem foldl_processRow_counts (db : DB) (rows : List StationRow) (s : GenState) :
    (rows.foldl (processRow db) s).markers.length
        + (rows.foldl (processRow db) s).unmatched.length
      = s.markers.length + s.unmatched.length + rows.length ∧
    (rows.foldl (processRow db) s).matched_count + s.markers.length
      = (rows.foldl (processRow db) s).markers.length + s.matched_count := by
  induction rows generalizing s with
  | nil => simp; omega
  | cons row rows ih =>
      obtain ⟨ih1, ih2⟩ := ih (processRow db s row)
      have h1 := processRow_one_outcome db s row
      have h2 := processRow_matched db s row
      simp only [List.foldl_cons, List.length_cons]
      omega

theorem processCsv_counts (db : DB) (rows : List StationRow) :
    (processCsv db rows).matched_count = (processCsv db rows).markers.length ∧
    (processCsv db rows).markers.length + (processCsv db rows).unmatched.length
      = rows.length := by
  obtain ⟨h1, h2⟩ := foldl_processRow_counts db rows ⟨[], [], 0⟩
  simp at h1 h2
  unfold processCsv
  constructor <;> omega

theorem buildStepPy_wf (s : BuildState) (n : Nat) (l : SrcLine) :
    buildStepPy s (n, wfLine l) = Except.ok (buildStep s (n, l)) := by
  cases l with
  | blank => rfl
  | malformed => rfl
  | record name coords =>
      cases name with
      | none =>
          cases coords <;>
            simp [wfLine, buildStepPy, buildStep, acceptsLine, pyStrip]
      | some s0 =>
          by_cases h0 : pyStrip s0 = ""
          · cases coords <;>
              simp [wfLine, buildStepPy, buildStep, acceptsLine, h0]
          · cases coords with
            | none =>
                simp [wfLine, buildStepPy, buildStep, acceptsLine, h0]
            | some kvs =>
                by_cases hk : kvs.isEmpty
                · simp [wfLine, buildStepPy, buildStep, acceptsLine, h0, hk,
                    List.isEmpty_iff.mp hk]
                · simp [wfLine, buildStepPy, buildStep, acceptsLine, lineRow,
                    h0, hk]

theorem enumFrom_map_wf (n : Nat) (l : List SrcLine) :
    List.enumFrom n (l.map wfLine)
      = (List.enumFrom n l).map (fun p => (p.1, wfLine p.2)) := by
  induction l generalizing n with
  | nil => rfl
  | cons x xs ih => simp [List.enumFrom, ih]

theorem buildFoldPy_wf (ps : List (Nat × SrcLine)) (s : BuildState) :
    buildFoldPy (ps.map fun p => (p.1, wfLine p.2)) s
      = Except.ok (ps.foldl buildStep s) := by
  induction ps generalizing s with
  | nil => rfl
  | cons p ps ih =>
      cases p with
      | mk n l => simp [buildFoldPy, buildStepPy_wf, ih]

theorem build_systems_db_py_wf (prior : DB) (lines : List SrcLine) :
    build_systems_db_py prior (lines.map wfLine)
      = Except.ok (build_systems_db prior lines) := by
  unfold build_systems_db_py build_systems_db
  rw [enumFrom_map_wf, buildFoldPy_wf]

theorem buildStepPy_skip (s : BuildState) (n : Nat) (l : JsonLine)
    (hm : isMalformedJ l = false) (hr : raisesLine l = false)
    (ha : acceptsLineJ l = false) :
    buildStepPy s (n, l) = Except.ok s := by
  cases l with
  | blank => rfl
  | malformed => simp [isMalformedJ] at hm
  | nonObject => simp [raisesLine] at hr
  | record name coords =>
      cases name with
      | nonString => simp [raisesLine] at hr
      | absent => rfl
      | str s0 =>
          by_cases h0 : pyStrip s0 = ""
          · simp [buildStepPy, h0]
          · cases coords with
            | absent => simp [buildStepPy, h0]
            | nonObjFalsy => simp [buildStepPy, h0]
            | nonObjTruthy => simp [raisesLine, h0] at hr
            | obj kvs =>
                have hk : kvs.isEmpty = true := by
                  simp [acceptsLineJ, h0] at ha
                  simpa using ha
                simp [buildStepPy, h0, hk]

theorem buildStepPy_raises (s : BuildState) (n : Nat) (l : JsonLine)
    (h : raisesLine l = true) :
    buildStepPy s (n, l) = Except.error PyError.attributeError := by
  cases l with
  | blank => simp [raisesLine] at h
  | malformed => simp [raisesLine] at h
  | nonObject => rfl
  | record name coords =>
      cases name with
      | nonString => rfl
      | absent => simp [raisesLine] at h
      | str s0 =>
          cases coords with
          | absent => simp [raisesLine] at h
          | nonObjFalsy => simp [raisesLine] at h
          | obj kvs => simp [raisesLine] at h
          | nonObjTruthy =>
              simp only [raisesLine, bne_iff_ne, ne_eq] at h
              simp [buildStepPy, h]

theorem buildStepPy_record_ok_warnings (s : BuildState) (n : Nat)
    (name : NameField) (coords : CoordsField) (s2 : BuildState)
    (h : buildStepPy s (n, JsonLine.record name coords) = Except.ok s2) :
    s2.warnings = s.warnings := by
  cases name with
  | nonString => simp [buildStepPy] at h
  | absent =>
      simp [buildStepPy] at h
      simp [← h]
  | str s0 =>
      by_cases h0 : pyStrip s0 = ""
      · simp [buildStepPy, h0] at h
        simp [← h]
      · cases coords with
        | absent =>
            simp [buildStepPy, h0] at h
            simp [← h]
        | nonObjFalsy =>
            simp [buildStepPy, h0] at h
            simp [← h]
        | nonObjTruthy => simp [buildStepPy, h0] at h
        | obj kvs =>
            by_cases hk : kvs.isEmpty
            · simp [buildStepPy, h0, hk] at h
              simp [← h]
            · simp [buildStepPy, h0, hk] at h
              simp [← h]

theorem buildFoldPy_ok_warnings (ps : List (Nat × JsonLine)) (s st : BuildState)
    (h : buildFoldPy ps s = Except.ok st) :
    st.warnings
      = s.warnings ++ ((ps.filter fun p => isMalformedJ p.2).map fun p => p.1) := by
  induction ps generalizing s with
  | nil =>
      simp [buildFoldPy] at h
      simp [h]
  | cons p ps ih =>
      rcases p with ⟨n, l⟩
      cases l with
      | blank =>
          simpa [isMalformedJ] using ih s (by simpa [buildFoldPy, buildStepPy] using h)
      | malformed =>
          have h2 : buildFoldPy ps ⟨s.db, s.count, s.warnings ++ [n]⟩
              = Except.ok st := by
            simpa [buildFoldPy, buildStepPy] using h
          have := ih _ h2
          simpa [isMalformedJ, List.append_assoc] using this
      | nonObject => simp [buildFoldPy, buildStepPy] at h
      | record name coords =>
          cases hs : buildStepPy s (n, JsonLine.record name coords) with
          | error e => simp [buildFoldPy, hs] at h
          | ok s2 =>
              have h2 : buildFoldPy ps s2 = Except.ok st := by
                simpa [buildFoldPy, hs] using h
              have hw := buildStepPy_record_ok_warnings s n name coords s2 hs
              have := ih s2 h2
              simpa [isMalformedJ, hw] using this

theorem buildFoldPy_no_raise_ok (ps : List (Nat × JsonLine)) (s : BuildState)
    (h : ∀ p ∈ ps, raisesLine p.2 = false) :
    ∃ st, buildFoldPy ps s = Except.ok st := by
  induction ps generalizing s with
  | nil => exact ⟨s, rfl⟩
  | cons p ps ih =>
      rcases p with ⟨n, l⟩
      have hp : raisesLine l = false := h (n, l) (List.mem_cons_self _ _)
      have hstep : ∃ s2, buildStepPy s (n, l) = Except.ok s2 := by
        cases l with
        | blank => exact ⟨s, rfl⟩
        | malformed => exact ⟨_, rfl⟩
        | nonObject => simp [raisesLine] at hp
        | record name coords =>
            cases name with
            | nonString => simp [raisesLine] at hp
            | absent => exact ⟨s, rfl⟩
            | str s0 =>
                by_cases h0 : pyStrip s0 = ""
                · exact ⟨s, by simp [buildStepPy, h0]⟩
                · cases coords with
                  | absent => exact ⟨s, by simp [buildStepPy, h0]⟩
                  | nonObjFalsy => exact ⟨s, by simp [buildStepPy, h0]⟩
                  | nonObjTruthy => simp [raisesLine, h0] at hp
                  | obj kvs =>
                      by_cases hk : kvs.isEmpty
                      · exact ⟨s, by simp [buildStepPy, h0, hk]⟩
                      · exact ⟨⟨insertOrReplace s.db
                            ⟨pyStrip s0, jget kvs "x", jget kvs "y",
                              jget kvs "z"⟩, s.count + 1, s.warnings⟩,
                          by simp [buildStepPy, h0, hk]⟩
      rcases hstep with ⟨s2, hs2⟩
      rcases ih s2 (fun q hq => h q (List.mem_cons_of_mem _ hq)) with ⟨st, hst⟩
      exact ⟨st, by simp [buildFoldPy, hs2, hst]⟩

theorem enumFrom_append_json (n : Nat) (xs ys : List JsonLine) :
    List.enumFrom n (xs ++ ys)
      = List.enumFrom n xs ++ List.enumFrom (n + xs.length) ys := by
  induction xs generalizing n with
  | nil => simp [List.enumFrom]
  | cons x xs ih =>
      have h : n + 1 + xs.length = n + (xs.length + 1) := by omega
      show (n, x) :: List.enumFrom (n + 1) (xs ++ ys)
          = (n, x) :: (List.enumFrom (n + 1) xs
              ++ List.enumFrom (n + (xs.length + 1)) ys)
      rw [ih, h]

theorem mem_enumFrom_snd (n : Nat) (l : List JsonLine) (p : Nat × JsonLine)
    (h : p ∈ List.enumFrom n l) : p.2 ∈ l := by
  induction l generalizing n with
  | nil => simp [List.enumFrom] at h
  | cons x xs ih =>
      simp only [List.enumFrom, List.mem_cons] at h
      rcases h with h | h
      · simp [h]
      · exact List.mem_cons_of_mem _ (ih (n + 1) h)

theorem buildFoldPy_append (ps qs : List (Nat × JsonLine)) (s : BuildState) :
    buildFoldPy (ps ++ qs) s
      = match buildFoldPy ps s with
        | Except.error e => Except.error e
        | Except.ok s2 => buildFoldPy qs s2 := by
  induction ps generalizing s with
  | nil => rfl
  | cons p ps ih =>
      simp only [List.cons_append, buildFoldPy]
      cases buildStepPy s p with
      | error e => rfl
      | ok s2 => exact ih s2

/-- C1: every station row of a run yields exactly one outcome — each
loop step grows `markers ++ unmatched` by exactly one element — the
matched counter always equals the marker count, a full run partitions
the rows (`markers + unmatched = total`), and the printed summary is
`(total, matched, unmatched)` with `total = rows.length`. -/
theorem C1_join_partition :
    (∀ (db : DB) (s : GenState) (row : StationRow),
      (processRow db s row).markers.length + (processRow db s row).unmatched.length
        = s.markers.length + s.unmatched.length + 1) ∧
    (∀ (db : DB) (rows : List StationRow),
      (processCsv db rows).matched_count = (processCsv db rows).markers.length ∧
      (processCsv db rows).markers.length + (processCsv db rows).unmatched.length
        = rows.length) ∧
    (∀ (db : DB) (rows : List StationRow),
      (generate_markers db (some rows)).summary
        = some (rows.length, (processCsv db rows).matched_count,
            (processCsv db rows).unmatched.length)) := by
  refine ⟨processRow_one_outcome, processCsv_counts, ?_⟩
  intro db rows
  obtain ⟨h1, h2⟩ := processCsv_counts db rows
  simp [generate_markers, processCsv] at h1 h2 ⊢
  omega

/-- C2: lookups against the `systems` table are case-insensitive under
the NOCASE fold — two queries equal up to ASCII case agree on every
table, and after a name is stored, querying any casing variant of it
returns the stored coordinates. -/
theorem C2_case_insensitive_lookup :
    (∀ (db : DB) (q1 q2 : String), nocase q1 = nocase q2 →
      get_system_coords db q1 = get_system_coords db q2) ∧
    (∀ (db : DB) (r : SysRow) (q : String), nocase q = nocase r.name →
      get_system_coords (insertOrReplace db r) q = some (r.x, r.y, r.z)) :=
  ⟨lookup_congr, lookup_insertOrReplace⟩

/-- Witness for C2 at "Sol" stored, queried as "SOL" and "sol". -/
theorem C2_case_insensitive_lookup_witness :
    get_system_coords [⟨"Sol", some 0, some 0, some 0⟩] "SOL"
        = get_system_coords [⟨"Sol", some 0, some 0, some 0⟩] "sol" ∧
    get_system_coords (insertOrReplace [] ⟨"Sol", some 0, some 0, some 0⟩) "SOL"
        = some (some 0, some 0, some 0) :=
  ⟨C2_case_insensitive_lookup.1 [⟨"Sol", some 0, some 0, some 0⟩] "SOL" "sol"
      (by decide),
    C2_case_insensitive_lookup.2 [] ⟨"Sol", some 0, some 0, some 0⟩ "SOL"
      (by decide)⟩

/-- C3: building from a source holding two accepted records whose names
collide under the NOCASE fold raises no duplicate-key error (the build
is a total function; `INSERT OR REPLACE` overwrites), the table keeps
exactly the later record, and looking the name up (in any casing)
returns the later record's coordinates. -/
theorem C3_last_write_wins (prior : DB) (n1 n2 q : String)
    (c1 c2 : List (String × Rat))
    (h1 : pyStrip n1 ≠ "") (h2 : pyStrip n2 ≠ "")
    (hc1 : c1 ≠ []) (hc2 : c2 ≠ [])
    (hn : nocase (pyStrip n1) = nocase (pyStrip n2))
    (hq : nocase q = nocase (pyStrip n2)) :
    (build_systems_db prior
        [SrcLine.record (some n1) (some c1),
         SrcLine.record (some n2) (some c2)]).db
      = [⟨pyStrip n2, jget c2 "x", jget c2 "y", jget c2 "z"⟩] ∧
    get_system_coords
      (build_systems_db prior
        [SrcLine.record (some n1) (some c1),
         SrcLine.record (some n2) (some c2)]).db q
      = some (jget c2 "x", jget c2 "y", jget c2 "z") := by
  have hacc1 : acceptsLine (SrcLine.record (some n1) (some c1)) = true := by
    simp [acceptsLine, h1, hc1]
  have hacc2 : acceptsLine (SrcLine.record (some n2) (some c2)) = true := by
    simp [acceptsLine, h2, hc2]
  have hdb : (build_systems_db prior
      [SrcLine.record (some n1) (some c1),
       SrcLine.record (some n2) (some c2)]).db
      = [⟨pyStrip n2, jget c2 "x", jget c2 "y", jget c2 "z"⟩] := by
    rw [build_db_applyLine]
    simp only [List.foldl_cons, List.foldl_nil, applyLine, hacc1, hacc2,
      if_pos]
    simp [insertOrReplace, lineRow, List.filter, hn]
  refine ⟨hdb, ?_⟩
  rw [hdb]
  simp [get_system_coords, List.find?_cons, hq]

/-- Witness for C3: "SOL" then "Sol" with different coordinates, looked
up as "sol". -/
theorem C3_last_write_wins_witness :
    (build_systems_db []
        [SrcLine.record (some "SOL") (some [("x", 1), ("y", 1), ("z", 1)]),
         SrcLine.record (some "Sol") (some [("x", 5), ("y", 6), ("z", 7)])]).db
      = [⟨pyStrip "Sol", jget [("x", 5), ("y", 6), ("z", 7)] "x",
          jget [("x", 5), ("y", 6), ("z", 7)] "y",
          jget [("x", 5), ("y", 6), ("z", 7)] "z"⟩] ∧
    get_system_coords
      (build_systems_db []
        [SrcLine.record (some "SOL") (some [("x", 1), ("y", 1), ("z", 1)]),
         SrcLine.record (some "Sol") (some [("x", 5), ("y", 6), ("z", 7)])]).db
      "sol"
      = some (jget [("x", 5), ("y", 6), ("z", 7)] "x",
          jget [("x", 5), ("y", 6), ("z", 7)] "y",
          jget [("x", 5), ("y", 6), ("z", 7)] "z") :=
  C3_last_write_wins [] "SOL" "Sol" "sol"
    [("x", 1), ("y", 1), ("z", 1)] [("x", 5), ("y", 6), ("z", 7)]
    (by decide) (by decide) (by decide) (by decide) (by decide) (by decide)

/-- C4: with both timestamps available the gate rebuilds exactly when
the source is strictly newer than the store and reuses the store when
`db_mtime ≥ jsonl_mtime`; a missing store always rebuilds. The decision
is a function of the two timestamps only — `ensure_systems_db` takes
nothing else. -/
theorem C4_freshness_gate (jm dm : Nat) :
    ensure_systems_db (some jm) (some dm)
      = Except.ok (if jm > dm then EnsureAction.rebuild else EnsureAction.reuse) ∧
    ensure_systems_db (some jm) none = Except.ok EnsureAction.rebuild := by
  refine ⟨?_, rfl⟩
  by_cases hle : dm ≥ jm
  · rw [if_neg (by omega)]
    simp [ensure_systems_db, hle]
  · rw [if_pos (by omega)]
    simp [ensure_systems_db, hle]

/-- C5: building twice from the same lines answers every lookup exactly
as building once — `DELETE FROM systems` makes the build independent of
the prior table, so the two stores are definitionally equal. -/
theorem C5_build_idempotent (prior : DB) (lines : List SrcLine) (q : String) :
    get_system_coords
        (build_systems_db (build_systems_db prior lines).db lines).db q
      = get_system_coords (build_systems_db prior lines).db q := rfl

/-- C6 counterexample, refuting both halves of the claim. The line
`{"name": "A"}` (line 1) parses but has no coordinate object, so per
the claim it is skipped and must be warned about; the build does skip
it (the table stays empty) yet emits no warning at all. And the line
`null` (`JsonLine.nonObject`) parses to JSON that lacks both a name and
a coordinate object, so per the claim it too is skipped without halting
the stream; in fact `system.get` raises an uncaught `AttributeError`
and the whole build halts. -/
theorem C6_skip_warning_counterexample :
    skippedPerSpec (SrcLine.record (some "A") none) = true ∧
    (build_systems_db [] [SrcLine.record (some "A") none]).db = [] ∧
    (build_systems_db [] [SrcLine.record (some "A") none]).warnings = [] ∧
    build_systems_db_py [] [JsonLine.nonObject]
      = Except.error PyError.attributeError :=
  ⟨by decide, by decide, by decide, rfl⟩

/-- C6 amended, over the full line universe. First: in any run of the
build that completes, the warnings are exactly the line numbers of the
lines raising `JSONDecodeError`, in order. Second: any other line that
does not raise and is not inserted — blank, or a parsed object lacking
a non-empty string name or a non-empty coords object — is skipped
silently, leaving the build state (table, count and warnings) exactly
unchanged. Third: lines on which the loop body raises `AttributeError`
(a parsed non-object line, a non-string name, or a truthy non-object
coords reached with a non-empty name) are not skipped at all: the first
such line halts the whole build with the uncaught error. -/
theorem C6_skip_warning_amended :
    (∀ (prior : DB) (lines : List JsonLine) (st : BuildState),
      build_systems_db_py prior lines = Except.ok st →
      st.warnings
        = ((List.enumFrom 1 lines).filter fun p => isMalformedJ p.2).map
            fun p => p.1) ∧
    (∀ (s : BuildState) (n : Nat) (l : JsonLine),
      isMalformedJ l = false → raisesLine l = false → acceptsLineJ l = false →
      buildStepPy s (n, l) = Except.ok s) ∧
    (∀ (prior : DB) (pre : List JsonLine) (l : JsonLine) (post : List JsonLine),
      raisesLine l = true → (∀ x ∈ pre, raisesLine x = false) →
      build_systems_db_py prior (pre ++ l :: post)
        = Except.error PyError.attributeError) := by
  refine ⟨?_, buildStepPy_skip, ?_⟩
  · intro prior lines st h
    simpa using buildFoldPy_ok_warnings (List.enumFrom 1 lines)
      ⟨clearTable prior, 0, []⟩ st h
  · intro prior pre l post hl hpre
    unfold build_systems_db_py
    rw [enumFrom_append_json, buildFoldPy_append]
    rcases buildFoldPy_no_raise_ok (List.enumFrom 1 pre)
        ⟨clearTable prior, 0, []⟩
        (fun p hp => hpre p.2 (mem_enumFrom_snd 1 pre p hp)) with ⟨st, hst⟩
    rw [hst]
    have hstep := buildStepPy_raises st (1 + pre.length) l hl
    simp [List.enumFrom, buildFoldPy, hstep]

/-- Witness for C6 amended: a run over just a malformed line 1 warns
exactly line 1; the no-coords line `{"name": "A"}` leaves the state
unchanged; and a `null` line after one good record halts the build. -/
theorem C6_skip_warning_amended_witness :
    ((⟨[], 0, [1]⟩ : BuildState).warnings
        = ((List.enumFrom 1 [JsonLine.malformed]).filter
            fun p => isMalformedJ p.2).map fun p => p.1) ∧
    buildStepPy ⟨[], 0, []⟩
        (1, JsonLine.record (NameField.str "A") CoordsField.absent)
      = Except.ok ⟨[], 0, []⟩ ∧
    build_systems_db_py []
        ([JsonLine.record (NameField.str "Sol") (CoordsField.obj [("x", 0)])]
          ++ JsonLine.nonObject :: [JsonLine.malformed])
      = Except.error PyError.attributeError :=
  ⟨C6_skip_warning_amended.1 [] [JsonLine.malformed] ⟨[], 0, [1]⟩ rfl,
    C6_skip_warning_amended.2.1 ⟨[], 0, []⟩ 1
      (JsonLine.record (NameField.str "A") CoordsField.absent)
      (by decide) (by decide) (by decide),
    C6_skip_warning_amended.2.2 []
      [JsonLine.record (NameField.str "Sol") (CoordsField.obj [("x", 0)])]
      JsonLine.nonObject [JsonLine.malformed] (by decide) (by decide)⟩

/-- C7 counterexample: the line `{"name": "Rhea", "coords": {"x": 1,
"y": 2}}` has a coords object missing `z`; the claim says it is dropped
with no entry added, but the build inserts a row for "Rhea" (with a
null `z`) and a lookup finds it. -/
theorem C7_partial_coords_counterexample :
    (build_systems_db []
        [SrcLine.record (some "Rhea") (some [("x", 1), ("y", 2)])]).db
      = [⟨"Rhea", some 1, some 2, none⟩] ∧
    get_system_coords
      (build_systems_db []
        [SrcLine.record (some "Rhea") (some [("x", 1), ("y", 2)])]).db "Rhea"
      = some (some 1, some 2, none) := by
  decide

/-- C7 amended: a record line with a non-empty name is dropped exactly
when its coords object is absent or empty; when the coords object is
non-empty, the line is inserted even if `x`, `y` or `z` is missing —
each missing component is stored as null, not defaulted to zero. -/
theorem C7_partial_coords_amended (prior : DB) (n : String)
    (c : List (String × Rat)) (hn : pyStrip n ≠ "") :
    (build_systems_db prior [SrcLine.record (some n) (some c)]).db
      = if c.isEmpty then []
        else [⟨pyStrip n, jget c "x", jget c "y", jget c "z"⟩] := by
  rw [build_db_applyLine]
  simp only [List.foldl_cons, List.foldl_nil, applyLine, acceptsLine]
  cases hc : c.isEmpty with
  | true =>
      simp [hc]
  | false =>
      simp [hc, hn, insertOrReplace, lineRow]

/-- Witness for C7 amended at "Rhea" with coords missing `y` and `z`. -/
theorem C7_partial_coords_amended_witness :
    (build_systems_db [] [SrcLine.record (some "Rhea") (some [("x", 1)])]).db
      = if ([(("x" : String), (1 : Rat))]).isEmpty then []
        else [⟨pyStrip "Rhea", jget [("x", 1)] "x", jget [("x", 1)] "y",
          jget [("x", 1)] "z"⟩] :=
  C7_partial_coords_amended [] "Rhea" [("x", 1)] (by decide)

/-- C8: a missing JSONL source aborts the build with exit code 1; a
missing station CSV aborts `generate_markers` with exit code 1 and no
output document is written; in the non-fatal case the output document
is exactly the markers of the fully processed table, written only
after every row went through the join. -/
theorem C8_fatal_io_no_partial_output :
    (∀ prior : DB, build_systems_db_from_file prior none = Except.error 1) ∧
    (∀ db : DB, (generate_markers db none).exitCode = some 1 ∧
      (generate_markers db none).artifact = none ∧
      (generate_markers db none).summary = none) ∧
    (∀ (db : DB) (rows : List StationRow),
      (generate_markers db (some rows)).artifact
        = some (processCsv db rows).markers) :=
  ⟨fun _ => rfl, fun _ => ⟨rfl, rfl, rfl⟩, fun _ _ => rfl⟩

/-- C9: when both files are readable, the pipeline always terminates
normally: no exit code, the output document is written, and the printed
summary is `(total, matched, unmatched)` with `matched + unmatched`
equal to the number of station rows. -/
theorem C9_completes_with_summary (db : DB) (rows : List StationRow) :
    (generate_markers db (some rows)).exitCode = none ∧
    (generate_markers db (some rows)).artifact
      = some (processCsv db rows).markers ∧
    (generate_markers db (some rows)).summary
      = some (rows.length, (processCsv db rows).matched_count,
          (processCsv db rows).unmatched.length) := by
  obtain ⟨h1, h2⟩ := processCsv_counts db rows
  refine ⟨rfl, rfl, ?_⟩
  simp [generate_markers]
  omega

/-- C10: `ensure_systems_db` evaluates `os.path.getmtime(jsonl_path)`
before looking at the store, so a missing record source raises an
uncaught `FileNotFoundError` whatever the store's timestamp is — even
when a fresh store exists. -/
theorem C10_source_mtime_required (db_mtime : Option Nat) :
    ensure_systems_db none db_mtime = Except.error PyError.fileNotFound := rfl
